import Mathlib

/-!
# Verification of the Swiss Ephemeris JNI binding layer

Shallow embedding of `android/app/src/main/cpp/swisseph_wrapper.cpp`.

The wrapper is a thin marshaling layer: it receives primitive arguments,
forwards them to Swiss Ephemeris C API calls, and repackages the returned
double arrays into managed maps and lists.  The Swiss Ephemeris library
itself is an external, licensed third-party dependency that is not part of
this repository; we therefore model its primitives abstractly, as an
arbitrary `SweLib` value whose calculation functions may return any status
and any result arrays, and may also fault (modelled by `Option`, `none`
standing for a thrown exception that the wrapper's `catch` blocks absorb).

The wrapper never performs arithmetic on the double values it marshals:
they are pure payload, copied between the library's arrays and the managed
objects.  The embedding is accordingly parametric in the payload type `D`
(standing for `jdouble`); witnesses instantiate `D := Int`.
-/

namespace Swisseph

/-- The two pieces of process-wide library state that the binding reads or
writes (the spec's §4/§9 globals), plus the library's internal
diagnostic/logging handle touched by `JNI_OnLoad` via `swe_close`.
`sidMode` records the arguments of the last `swe_set_sid_mode` call
(`none` if it was never called). -/
structure SweState (D : Type) where
  ephePath : String
  sidMode : Option (Int × D × D)
  diagHandleOpen : Bool
deriving Repr, DecidableEq

/-- `swe_set_ephe_path(path)`: stores the ephemeris data directory into the
library's process-wide state.  The library does no validation that the
directory exists. -/
def swe_set_ephe_path {D : Type} (path : String) (s : SweState D) : SweState D :=
  { s with ephePath := path }

/-- `swe_set_sid_mode(sid_mode, t0, ayan_t0)`: stores the process-wide
sidereal calculation mode. -/
def swe_set_sid_mode {D : Type} (sidMode : Int) (t0 ayanT0 : D) (s : SweState D) :
    SweState D :=
  { s with sidMode := some (sidMode, t0, ayanT0) }

/-- Modelled from the spec: `swe_close` belongs to the external library
(its source is not in this repository); per the spec's process
initialization description it "suppresses the underlying library's
internal diagnostic/logging handle", which we record in the
`diagHandleOpen` field. -/
def swe_close {D : Type} (s : SweState D) : SweState D :=
  { s with diagHandleOpen := false }

/-- The external Swiss Ephemeris calculation primitives, modelled
abstractly.  Each takes the current process-wide state and the call's
arguments; a `none` result models an internal fault (an exception crossing
into the wrapper's `catch`), a `some` result carries the C status code
together with the output arrays the library wrote.  The `serr` error
string each C call receives is never read by the wrapper, so it is not
modelled. -/
structure SweLib (D : Type) where
  /-- `swe_calc_ut(tjd_ut, ipl, iflag, xx, serr)`: status and the 6-element
  position array `xx`. -/
  swe_calc_ut : SweState D → D → Int → Int → Option (Int × (Fin 6 → D))
  /-- `swe_houses(tjd_ut, geolat, geolon, hsys, cusps, ascmc)`: status, the
  13-element 1-indexed cusp array and the 10-element `ascmc` array. -/
  swe_houses : SweState D → D → D → D → Int → Option (Int × (Fin 13 → D) × (Fin 10 → D))
  /-- `swe_get_ayanamsa_ut(tjd_ut)`. -/
  swe_get_ayanamsa_ut : SweState D → D → Option D

/-- `SEFLG_SPEED` from the Swiss Ephemeris public API. -/
def SEFLG_SPEED : Int := 256

/-- `SEFLG_SIDEREAL` from the Swiss Ephemeris public API. -/
def SEFLG_SIDEREAL : Int := 65536

/-- `JNI_VERSION_1_6` (`0x00010006`). -/
def JNI_VERSION_1_6 : Int := 65542

/-- A `java.util.HashMap` built by a sequence of `put` calls, modelled as
an association list of its bindings. -/
def JMap (D : Type) : Type := List (String × D)

/-- `HashMap.put(k, v)`: replaces any existing binding of `k` and binds
`k` to `v`. -/
def JMap.put {D : Type} (m : JMap D) (k : String) (v : D) : JMap D :=
  (m.filter (fun p => p.1 != k)) ++ [(k, v)]

/-- The key set (in binding order) of a marshalled map. -/
def JMap.keys {D : Type} (m : JMap D) : List String :=
  m.map Prod.fst

/-- Lookup of a key in a marshalled map. -/
def JMap.lookup {D : Type} (m : JMap D) (k : String) : Option D :=
  List.lookup k m

/-- `setEphemerisPath` (JNI entry point
`Java_..._SwissEphemerisWrapper_setEphemerisPath`).  The `jstring`
argument is modelled as `Option String`: `none` is a string whose
characters `GetStringUTFChars` cannot produce (it returns `nullptr`), in
which case the function returns `JNI_FALSE` without touching the library.
Otherwise it forwards the path to `swe_set_ephe_path` and returns
`JNI_TRUE`. -/
def setEphemerisPath {D : Type} (s : SweState D) (path : Option String) :
    SweState D × Bool :=
  match path with
  | none => (s, false)
  | some pathStr => (swe_set_ephe_path pathStr s, true)

/-- `getPlanetPositionInternal`: if `ayanamsha >= 0`, first calls
`swe_set_sid_mode(ayanamsha, 0, 0)`; then calls `swe_calc_ut` with flags
`SEFLG_SIDEREAL | SEFLG_SPEED`; on negative status (or a caught fault)
returns `nullptr` (`none`), otherwise builds a `HashMap` binding
`longitude`, `latitude`, `distance`, `speed` to `xx[0] .. xx[3]`.  The
`latitude` and `longitude` parameters appear in the C signature but are
never read by the body. -/
def getPlanetPositionInternal {D : Type} [Zero D] (lib : SweLib D) (s : SweState D)
    (julianDay : D) (planet : Int) (latitude longitude : D) (ayanamsha : Int) :
    SweState D × Option (JMap D) :=
  let s1 := if ayanamsha ≥ 0 then swe_set_sid_mode ayanamsha 0 0 s else s
  match lib.swe_calc_ut s1 julianDay planet (Int.lor SEFLG_SIDEREAL SEFLG_SPEED) with
  | none => (s1, none)
  | some (result, xx) =>
    if result < 0 then
      (s1, none)
    else
      (s1, some (JMap.put (JMap.put (JMap.put (JMap.put ([] : JMap D)
        "longitude" (xx 0)) "latitude" (xx 1)) "distance" (xx 2)) "speed" (xx 3)))

/-- `getAyanamshaInternal`: calls `swe_get_ayanamsa_ut(julianDay)` and
returns its value; a caught fault yields `0.0`.  The `ayanamshaType`
parameter appears in the C signature but is never read by the body. -/
def getAyanamshaInternal {D : Type} [Zero D] (lib : SweLib D) (s : SweState D)
    (julianDay : D) (ayanamshaType : Int) : SweState D × D :=
  match lib.swe_get_ayanamsa_ut s julianDay with
  | none => (s, 0)
  | some ayanamshaValue => (s, ayanamshaValue)

/-- `getHouseCuspsInternal`: calls `swe_houses`; on negative status (or a
caught fault) returns `nullptr` (`none`), otherwise builds an `ArrayList`
of `cusps[1] .. cusps[12]` in that order (`cusps[0]` is skipped). -/
def getHouseCuspsInternal {D : Type} (lib : SweLib D) (s : SweState D)
    (julianDay latitude longitude : D) (houseSystem : Int) :
    SweState D × Option (List D) :=
  match lib.swe_houses s julianDay latitude longitude houseSystem with
  | none => (s, none)
  | some (result, cusps, _ascmc) =>
    if result < 0 then
      (s, none)
    else
      (s, some (List.ofFn (fun i : Fin 12 => cusps i.succ)))

/-- `getAscendantDataInternal`: calls `swe_houses` with the same arguments
as `getHouseCuspsInternal`; on negative status (or a caught fault) returns
`nullptr` (`none`), otherwise builds a `HashMap` binding `ascendant`,
`midheaven`, `armc`, `vertex`, `equatorialAscendant` to
`ascmc[0] .. ascmc[4]`. -/
def getAscendantDataInternal {D : Type} (lib : SweLib D) (s : SweState D)
    (julianDay latitude longitude : D) (houseSystem : Int) :
    SweState D × Option (JMap D) :=
  match lib.swe_houses s julianDay latitude longitude houseSystem with
  | none => (s, none)
  | some (result, _cusps, ascmc) =>
    if result < 0 then
      (s, none)
    else
      (s, some (JMap.put (JMap.put (JMap.put (JMap.put (JMap.put ([] : JMap D)
        "ascendant" (ascmc 0)) "midheaven" (ascmc 1)) "armc" (ascmc 2))
        "vertex" (ascmc 3)) "equatorialAscendant" (ascmc 4)))

/-- The fixed default ephemeris path hard-coded in `JNI_OnLoad`. -/
def defaultEphemerisPath : String :=
  "/data/data/com.supernova.skvk_application/files/ephemeris"

/-- `JNI_OnLoad(vm, reserved)`: runs once at process load, before any
public entry point; sets the ephemeris path to the hard-coded default,
then calls `swe_close`, and returns `JNI_VERSION_1_6`.  The `vm` and
`reserved` arguments (kept as opaque type parameters) are never read. -/
def JNI_OnLoad {D V R : Type} (vm : V) (reserved : R) (s : SweState D) :
    SweState D × Int :=
  let s1 := swe_set_ephe_path defaultEphemerisPath s
  let s2 := swe_close s1
  (s2, JNI_VERSION_1_6)

/-! ## Concrete fixtures used by the witness theorems

The library is a parameter of the binding, so the witnesses evaluate the
wrapper against small concrete `SweLib Int` instances: one that succeeds,
one that reports a negative status, one that faults, and one whose
ayanamsha is legitimately zero. -/

/-- Concrete position array used by the succeeding witness library. -/
def xxW : Fin 6 → Int := fun i => (i : Int)

/-- Concrete cusp array used by the succeeding witness library. -/
def cuspsW : Fin 13 → Int := fun i => (10 + (i : Int))

/-- Concrete `ascmc` array used by the succeeding witness library. -/
def ascmcW : Fin 10 → Int := fun i => (100 + (i : Int))

/-- A witness library whose every calculation succeeds with status `0`. -/
def libW : SweLib Int where
  swe_calc_ut := fun _ _ _ _ => some (0, xxW)
  swe_houses := fun _ _ _ _ _ => some (0, cuspsW, ascmcW)
  swe_get_ayanamsa_ut := fun _ _ => some 24

/-- A witness library whose every calculation reports status `-1`. -/
def libFail : SweLib Int where
  swe_calc_ut := fun _ _ _ _ => some (-1, fun _ => 0)
  swe_houses := fun _ _ _ _ _ => some (-1, fun _ => 0, fun _ => 0)
  swe_get_ayanamsa_ut := fun _ _ => some 0

/-- A witness library whose every calculation faults (throws). -/
def libFault : SweLib Int where
  swe_calc_ut := fun _ _ _ _ => none
  swe_houses := fun _ _ _ _ _ => none
  swe_get_ayanamsa_ut := fun _ _ => none

/-- A witness library whose ayanamsha is legitimately zero. -/
def libZero : SweLib Int where
  swe_calc_ut := fun _ _ _ _ => some (0, xxW)
  swe_houses := fun _ _ _ _ _ => some (0, cuspsW, ascmcW)
  swe_get_ayanamsa_ut := fun _ _ => some 0

/-- A concrete starting state for the witnesses. -/
def sW : SweState Int :=
  { ephePath := "/sdcard/ephe", sidMode := none, diagHandleOpen := true }

/-! ## Helper lemmas -/

/-- The state `getPlanetPositionInternal` returns: the sidereal mode is
set exactly when `ayanamsha ≥ 0`, on every control path (fault, negative
status, success). -/
theorem getPlanetPositionInternal_fst {D : Type} [Zero D] (lib : SweLib D)
    (s : SweState D) (julianDay : D) (planet : Int) (latitude longitude : D)
    (ayanamsha : Int) :
    (getPlanetPositionInternal lib s julianDay planet latitude longitude ayanamsha).1 =
      if ayanamsha ≥ 0 then swe_set_sid_mode ayanamsha 0 0 s else s := by
  simp only [getPlanetPositionInternal]
  rcases hc : lib.swe_calc_ut (if ayanamsha ≥ 0 then swe_set_sid_mode ayanamsha 0 0 s else s)
      julianDay planet (Int.lor SEFLG_SIDEREAL SEFLG_SPEED) with _ | ⟨r, xx⟩
  · rfl
  · by_cases hr : r < 0 <;> simp [hr]

/-- Evaluation of `getHouseCuspsInternal` once the library call's outcome
is known. -/
theorem getHouseCuspsInternal_eq {D : Type} (lib : SweLib D) (s : SweState D)
    (julianDay latitude longitude : D) (houseSystem : Int)
    (r : Int) (cusps : Fin 13 → D) (ascmc : Fin 10 → D)
    (hh : lib.swe_houses s julianDay latitude longitude houseSystem =
      some (r, cusps, ascmc)) :
    getHouseCuspsInternal lib s julianDay latitude longitude houseSystem =
      if r < 0 then (s, none)
      else (s, some (List.ofFn fun i : Fin 12 => cusps i.succ)) := by
  simp only [getHouseCuspsInternal]
  rw [hh]

/-- Evaluation of `getAscendantDataInternal` once the library call's
outcome is known. -/
theorem getAscendantDataInternal_eq {D : Type} (lib : SweLib D) (s : SweState D)
    (julianDay latitude longitude : D) (houseSystem : Int)
    (r : Int) (cusps : Fin 13 → D) (ascmc : Fin 10 → D)
    (hh : lib.swe_houses s julianDay latitude longitude houseSystem =
      some (r, cusps, ascmc)) :
    getAscendantDataInternal lib s julianDay latitude longitude houseSystem =
      if r < 0 then (s, none)
      else (s, some (JMap.put (JMap.put (JMap.put (JMap.put (JMap.put
        ([] : JMap D) "ascendant" (ascmc 0)) "midheaven" (ascmc 1)) "armc"
        (ascmc 2)) "vertex" (ascmc 3)) "equatorialAscendant" (ascmc 4))) := by
  simp only [getAscendantDataInternal]
  rw [hh]

/-- Evaluation of `getHouseCuspsInternal` when the library call faults. -/
theorem getHouseCuspsInternal_fault {D : Type} (lib : SweLib D) (s : SweState D)
    (julianDay latitude longitude : D) (houseSystem : Int)
    (hh : lib.swe_houses s julianDay latitude longitude houseSystem = none) :
    getHouseCuspsInternal lib s julianDay latitude longitude houseSystem =
      (s, none) := by
  simp only [getHouseCuspsInternal]
  rw [hh]

/-- Evaluation of `getAscendantDataInternal` when the library call
faults. -/
theorem getAscendantDataInternal_fault {D : Type} (lib : SweLib D) (s : SweState D)
    (julianDay latitude longitude : D) (houseSystem : Int)
    (hh : lib.swe_houses s julianDay latitude longitude houseSystem = none) :
    getAscendantDataInternal lib s julianDay latitude longitude houseSystem =
      (s, none) := by
  simp only [getAscendantDataInternal]
  rw [hh]

/-! ## Claim theorems -/

/-- C1: whenever the library's position calculation reports a
non-negative status, `getPlanetPositionInternal` returns a mapping whose
bindings are exactly the four keys `longitude`, `latitude`, `distance`
and `speed`, bound respectively to elements `0`, `1`, `2` and `3` of the
library's result array `xx`; whenever the status is negative, it returns
an absent result (`none`), with no partial data. -/
theorem getPlanetPosition_marshal {D : Type} [Zero D] (lib : SweLib D)
    (s : SweState D) (julianDay : D) (planet : Int) (latitude longitude : D)
    (ayanamsha : Int) (result : Int) (xx : Fin 6 → D)
    (hcalc : lib.swe_calc_ut
        (if ayanamsha ≥ 0 then swe_set_sid_mode ayanamsha 0 0 s else s)
        julianDay planet (Int.lor SEFLG_SIDEREAL SEFLG_SPEED) = some (result, xx)) :
    (0 ≤ result →
      (getPlanetPositionInternal lib s julianDay planet latitude longitude ayanamsha).2 =
        some [("longitude", xx 0), ("latitude", xx 1),
              ("distance", xx 2), ("speed", xx 3)]) ∧
    (result < 0 →
      (getPlanetPositionInternal lib s julianDay planet latitude longitude
        ayanamsha).2 = none) := by
  constructor
  · intro hres
    simp [getPlanetPositionInternal, hcalc, not_lt_of_le hres, JMap.put]
  · intro hres
    simp [getPlanetPositionInternal, hcalc, hres]

/-- C1 witness: the succeeding witness library at concrete arguments. -/
theorem getPlanetPosition_marshal_witness :
    (getPlanetPositionInternal libW sW 5 3 1 2 7).2 =
      some [("longitude", xxW 0), ("latitude", xxW 1),
            ("distance", xxW 2), ("speed", xxW 3)] :=
  (getPlanetPosition_marshal libW sW 5 3 1 2 7 0 xxW rfl).1 (by decide)

/-- C2: `getHouseCuspsInternal` never returns a partial sequence: any
present result has exactly 12 elements, and comes from a library call
`swe_houses` with non-negative status whose 1-indexed cusp array fills
the sequence with indices `1` through `12` (index `0` skipped): the
0-based element `i` of the result is `cusps[i+1]`, i.e. the 1-based
element `i` is `cusps[i]` for `i = 1 .. 12`. -/
theorem getHouseCusps_shape {D : Type} (lib : SweLib D) (s : SweState D)
    (julianDay latitude longitude : D) (houseSystem : Int) (l : List D)
    (hl : (getHouseCuspsInternal lib s julianDay latitude longitude
      houseSystem).2 = some l) :
    l.length = 12 ∧
    ∃ r cusps ascmc,
      lib.swe_houses s julianDay latitude longitude houseSystem =
        some (r, cusps, ascmc) ∧ 0 ≤ r ∧
      ∀ i : Fin 12, l[(i : Nat)]? = some (cusps i.succ) := by
  rcases hh : lib.swe_houses s julianDay latitude longitude houseSystem
    with _ | ⟨r, cusps, ascmc⟩
  · simp [getHouseCuspsInternal, hh] at hl
  · by_cases hr : r < 0
    · simp [getHouseCuspsInternal, hh, hr] at hl
    · rw [getHouseCuspsInternal_eq lib s julianDay latitude longitude houseSystem
        r cusps ascmc hh, if_neg hr] at hl
      obtain rfl : List.ofFn (fun i : Fin 12 => cusps i.succ) = l :=
        Option.some.inj hl
      refine ⟨by rw [List.length_ofFn], r, cusps, ascmc, rfl, le_of_not_lt hr, ?_⟩
      intro i
      rw [List.getElem?_ofFn]
      unfold List.ofFnNthVal
      rw [dif_pos i.isLt]

/-- C2 witness: the succeeding witness library at concrete arguments. -/
theorem getHouseCusps_shape_witness :
    (List.ofFn fun i : Fin 12 => cuspsW i.succ).length = 12 ∧
    ∃ r cusps ascmc,
      libW.swe_houses sW 1 2 3 4 = some (r, cusps, ascmc) ∧ 0 ≤ r ∧
      ∀ i : Fin 12,
        (List.ofFn fun j : Fin 12 => cuspsW j.succ)[(i : Nat)]? =
          some (cusps i.succ) :=
  getHouseCusps_shape libW sW 1 2 3 4 (List.ofFn fun i : Fin 12 => cuspsW i.succ) rfl

/-- C3: the `ayanamshaType` parameter of `getAyanamshaInternal` has no
influence: two calls with the same Julian day, the same library and the
same state but different `ayanamshaType` values return the same value and
the same state — and the state returned is the input state, unchanged. -/
theorem getAyanamsha_ignores_type {D : Type} [Zero D] (lib : SweLib D)
    (s : SweState D) (julianDay : D) (t1 t2 : Int) :
    getAyanamshaInternal lib s julianDay t1 =
      getAyanamshaInternal lib s julianDay t2 ∧
    (getAyanamshaInternal lib s julianDay t1).1 = s := by
  refine ⟨rfl, ?_⟩
  unfold getAyanamshaInternal
  rcases lib.swe_get_ayanamsa_ut s julianDay <;> rfl

/-- C4: when the library's ayanamsha computation faults,
`getAyanamshaInternal` returns exactly `0.0` and the unchanged state — no
error is propagated — so the failed call is indistinguishable from a call
against a library whose ayanamsha at the same time is legitimately
zero. -/
theorem getAyanamsha_fault_zero {D : Type} [Zero D] (lib lib' : SweLib D)
    (s : SweState D) (julianDay : D) (t : Int)
    (hfault : lib.swe_get_ayanamsa_ut s julianDay = none)
    (hzero : lib'.swe_get_ayanamsa_ut s julianDay = some 0) :
    getAyanamshaInternal lib s julianDay t = (s, 0) ∧
    getAyanamshaInternal lib' s julianDay t =
      getAyanamshaInternal lib s julianDay t := by
  constructor
  · simp [getAyanamshaInternal, hfault]
  · simp [getAyanamshaInternal, hfault, hzero]

/-- C4 witness: the faulting witness library against the legitimately
zero one. -/
theorem getAyanamsha_fault_zero_witness :
    getAyanamshaInternal libFault sW 1 2 = (sW, 0) ∧
    getAyanamshaInternal libZero sW 1 2 = getAyanamshaInternal libFault sW 1 2 :=
  getAyanamsha_fault_zero libFault libZero sW 1 2 rfl rfl

/-- C5: `setEphemerisPath` returns `true` for every readable input string
— whatever its content, including a path naming a nonexistent directory,
since the call performs no filesystem check and only stores the string —
and returns `false` exactly when the string cannot be read (modelled as
the `none` input). -/
theorem setEphemerisPath_result {D : Type} (s : SweState D) (p : String) :
    setEphemerisPath s (some p) = (swe_set_ephe_path p s, true) ∧
    setEphemerisPath s none = (s, false) :=
  ⟨rfl, rfl⟩

/-- C6: `getPlanetPositionInternal` with a non-negative `ayanamsha` sets
the process-wide sidereal mode before the position calculation (the whole
call behaves as if the mode had already been set on entry) and the
setting persists in the state the call returns; with a negative
`ayanamsha` the sidereal mode — indeed the whole state — is left
unchanged.  In either case the process-wide ephemeris path is
untouched. -/
theorem getPlanetPosition_state_effects {D : Type} [Zero D] (lib : SweLib D)
    (s : SweState D) (julianDay : D) (planet : Int) (latitude longitude : D)
    (ayanamsha : Int) :
    (0 ≤ ayanamsha →
      (getPlanetPositionInternal lib s julianDay planet latitude longitude
        ayanamsha).1 = swe_set_sid_mode ayanamsha 0 0 s ∧
      getPlanetPositionInternal lib s julianDay planet latitude longitude
        ayanamsha =
        getPlanetPositionInternal lib (swe_set_sid_mode ayanamsha 0 0 s)
          julianDay planet latitude longitude ayanamsha) ∧
    (ayanamsha < 0 →
      (getPlanetPositionInternal lib s julianDay planet latitude longitude
        ayanamsha).1 = s) ∧
    (getPlanetPositionInternal lib s julianDay planet latitude longitude
      ayanamsha).1.ephePath = s.ephePath := by
  refine ⟨fun hay => ⟨?_, ?_⟩, fun hay => ?_, ?_⟩
  · rw [getPlanetPositionInternal_fst, if_pos hay]
  · simp only [getPlanetPositionInternal, if_pos hay]
    rfl
  · rw [getPlanetPositionInternal_fst, if_neg (not_le_of_lt hay)]
  · rw [getPlanetPositionInternal_fst]
    by_cases hay : ayanamsha ≥ 0
    · rw [if_pos hay]; rfl
    · rw [if_neg hay]

/-- C6 witness: concrete calls with `ayanamshaId = 5` and
`ayanamshaId = -1`. -/
theorem getPlanetPosition_state_effects_witness :
    (getPlanetPositionInternal libW sW 1 2 3 4 5).1 = swe_set_sid_mode 5 0 0 sW ∧
    (getPlanetPositionInternal libW sW 1 2 3 4 (-1)).1 = sW ∧
    (getPlanetPositionInternal libW sW 1 2 3 4 5).1.ephePath = sW.ephePath :=
  ⟨((getPlanetPosition_state_effects libW sW 1 2 3 4 5).1 (by decide)).1,
   (getPlanetPosition_state_effects libW sW 1 2 3 4 (-1)).2.1 (by decide),
   (getPlanetPosition_state_effects libW sW 1 2 3 4 5).2.2⟩

/-- C7: `getAscendantDataInternal` and `getHouseCuspsInternal` are both
defined by the same `swe_houses` library primitive applied to the same
arguments in the same state, so they succeed or fail together, and on
success the five named ascendant values are `ascmc[0] .. ascmc[4]` of the
very same computation whose cusp array the cusp call returns; both calls
leave the state unchanged, so invoking them one after the other queries
the same library state. -/
theorem ascendant_houses_consistent {D : Type} (lib : SweLib D)
    (s : SweState D) (julianDay latitude longitude : D) (houseSystem : Int) :
    ((getAscendantDataInternal lib s julianDay latitude longitude
        houseSystem).2 = none ↔
      (getHouseCuspsInternal lib s julianDay latitude longitude
        houseSystem).2 = none) ∧
    (∀ r cusps ascmc,
      lib.swe_houses s julianDay latitude longitude houseSystem =
        some (r, cusps, ascmc) →
      0 ≤ r →
      (getAscendantDataInternal lib s julianDay latitude longitude
        houseSystem).2 =
        some [("ascendant", ascmc 0), ("midheaven", ascmc 1),
              ("armc", ascmc 2), ("vertex", ascmc 3),
              ("equatorialAscendant", ascmc 4)] ∧
      (getHouseCuspsInternal lib s julianDay latitude longitude
        houseSystem).2 =
        some (List.ofFn fun i : Fin 12 => cusps i.succ)) ∧
    (getAscendantDataInternal lib s julianDay latitude longitude
      houseSystem).1 = s ∧
    (getHouseCuspsInternal lib s julianDay latitude longitude
      houseSystem).1 = s := by
  rcases hh : lib.swe_houses s julianDay latitude longitude houseSystem
    with _ | ⟨r, cusps, ascmc⟩
  · rw [getAscendantDataInternal_fault lib s julianDay latitude longitude
      houseSystem hh,
      getHouseCuspsInternal_fault lib s julianDay latitude longitude
      houseSystem hh]
    refine ⟨by simp, ?_, rfl, rfl⟩
    intro r' cusps' ascmc' hsome
    exact absurd hsome (by simp)
  · rw [getAscendantDataInternal_eq lib s julianDay latitude longitude
      houseSystem r cusps ascmc hh,
      getHouseCuspsInternal_eq lib s julianDay latitude longitude
      houseSystem r cusps ascmc hh]
    by_cases hr : r < 0
    · rw [if_pos hr, if_pos hr]
      refine ⟨by simp, ?_, rfl, rfl⟩
      intro r' cusps' ascmc' hsome hr'
      simp only [Option.some.injEq, Prod.mk.injEq] at hsome
      obtain ⟨rfl, rfl, rfl⟩ := hsome
      exact absurd hr' (not_le_of_lt hr)
    · rw [if_neg hr, if_neg hr]
      refine ⟨by simp, ?_, rfl, rfl⟩
      intro r' cusps' ascmc' hsome hr'
      simp only [Option.some.injEq, Prod.mk.injEq] at hsome
      obtain ⟨rfl, rfl, rfl⟩ := hsome
      exact ⟨rfl, rfl⟩

/-- C7 witness: the succeeding witness library at concrete arguments. -/
theorem ascendant_houses_consistent_witness :
    (getAscendantDataInternal libW sW 1 2 3 4).2 =
      some [("ascendant", ascmcW 0), ("midheaven", ascmcW 1),
            ("armc", ascmcW 2), ("vertex", ascmcW 3),
            ("equatorialAscendant", ascmcW 4)] ∧
    (getHouseCuspsInternal libW sW 1 2 3 4).2 =
      some (List.ofFn fun i : Fin 12 => cuspsW i.succ) :=
  (ascendant_houses_consistent libW sW 1 2 3 4).2.1 0 cuspsW ascmcW rfl
    (by decide)

/-- C8: `JNI_OnLoad` — run once at process load, before any public entry
point is reachable — sets the process-wide ephemeris path to the fixed
default location and immediately afterwards suppresses the library's
diagnostic/logging handle via `swe_close`; it reads neither of its
arguments, so the startup action is not configurable by the caller. -/
theorem JNI_OnLoad_startup {D V R V2 R2 : Type} (vm : V) (reserved : R)
    (vm2 : V2) (reserved2 : R2) (s : SweState D) :
    JNI_OnLoad vm reserved s =
      (swe_close (swe_set_ephe_path defaultEphemerisPath s), JNI_VERSION_1_6) ∧
    (JNI_OnLoad vm reserved s).1.ephePath = defaultEphemerisPath ∧
    (JNI_OnLoad vm reserved s).1.diagHandleOpen = false ∧
    JNI_OnLoad vm reserved s = JNI_OnLoad vm2 reserved2 s :=
  ⟨rfl, rfl, rfl, rfl⟩

/-- C9: the `latitude` and `longitude` parameters of
`getPlanetPositionInternal` are accepted but never used: two calls
differing only in them return the same result and leave the same
state. -/
theorem getPlanetPosition_ignores_location {D : Type} [Zero D]
    (lib : SweLib D) (s : SweState D) (julianDay : D) (planet : Int)
    (ayanamsha : Int) (lat1 lon1 lat2 lon2 : D) :
    getPlanetPositionInternal lib s julianDay planet lat1 lon1 ayanamsha =
      getPlanetPositionInternal lib s julianDay planet lat2 lon2 ayanamsha :=
  rfl

/-- C10: `getPlanetPositionInternal` is not atomic with respect to the
sidereal mode: with a non-negative `ayanamsha`, when the subsequent
position calculation reports a negative status the call returns an
absent result, yet the state it leaves behind already carries — and
keeps — the new sidereal mode. -/
theorem getPlanetPosition_nonatomic_sidmode {D : Type} [Zero D]
    (lib : SweLib D) (s : SweState D) (julianDay : D) (planet : Int)
    (latitude longitude : D) (ayanamsha : Int) (result : Int)
    (xx : Fin 6 → D)
    (hay : 0 ≤ ayanamsha)
    (hcalc : lib.swe_calc_ut (swe_set_sid_mode ayanamsha 0 0 s) julianDay
      planet (Int.lor SEFLG_SIDEREAL SEFLG_SPEED) = some (result, xx))
    (hres : result < 0) :
    getPlanetPositionInternal lib s julianDay planet latitude longitude
      ayanamsha = (swe_set_sid_mode ayanamsha 0 0 s, none) ∧
    (getPlanetPositionInternal lib s julianDay planet latitude longitude
      ayanamsha).1.sidMode = some (ayanamsha, 0, 0) := by
  have hcalc' : lib.swe_calc_ut
      (if ayanamsha ≥ 0 then swe_set_sid_mode ayanamsha 0 0 s else s)
      julianDay planet (Int.lor SEFLG_SIDEREAL SEFLG_SPEED) =
      some (result, xx) := by
    rwa [if_pos hay]
  have h1 : (getPlanetPositionInternal lib s julianDay planet latitude
      longitude ayanamsha).1 = swe_set_sid_mode ayanamsha 0 0 s := by
    rw [getPlanetPositionInternal_fst, if_pos hay]
  have h2 : (getPlanetPositionInternal lib s julianDay planet latitude
      longitude ayanamsha).2 = none := by
    simp [getPlanetPositionInternal, hcalc', hres]
  refine ⟨Prod.ext h1 h2, ?_⟩
  rw [h1]
  rfl

/-- C10 witness: the failing witness library with `ayanamshaId = 6`. -/
theorem getPlanetPosition_nonatomic_sidmode_witness :
    getPlanetPositionInternal libFail sW 1 2 3 4 6 =
      (swe_set_sid_mode 6 0 0 sW, none) ∧
    (getPlanetPositionInternal libFail sW 1 2 3 4 6).1.sidMode =
      some (6, 0, 0) :=
  getPlanetPosition_nonatomic_sidmode libFail sW 1 2 3 4 6 (-1) (fun _ => 0)
    (by decide) rfl (by decide)

end Swisseph
